import Mathlib

/-!
Verification of `src/calculator.py` (class `Calculator`): a string-based
infix calculator that converts the input to Reverse Polish Notation with a
shunting-yard pass and then evaluates the RPN token list with a stack
machine.

Modelling conventions:
* Python tokens are strings; we keep tokens as `String`.
* Python exceptions (`ValueError` with its various messages, the guard's
  `ZeroDivisionError("Division by zero")`, and the exceptions raised by the
  runtime inside `operator.truediv` / `operator.mod` / `operator.pow`) are
  modelled as an explicit error type `CalcError`, and every fallible
  function returns `Except CalcError _`.
* Python `float` values are modelled as exact rationals `ℚ`.  Every numeric
  literal and arithmetic step exercised by the properties below is exact in
  binary floating point, so the rational model agrees with the float one on
  them.  `operator.pow` with a non-integer exponent would produce a float or
  complex value that `ℚ` cannot represent; the model returns a dedicated
  error in that case, which no property below exercises.
* Python's `str.isdigit` is modelled on ASCII digits and `str.strip` on the
  six ASCII whitespace characters; all inputs exercised are ASCII.
-/

set_option maxRecDepth 4000
set_option maxHeartbeats 2000000

deriving instance DecidableEq for Except

namespace Calculator

/-- Error kinds of the Python code.  The first six are the exceptions the
calculator raises itself (`ValueError`/`ZeroDivisionError` with distinct
messages); the last four model exceptions raised by the Python runtime
inside the `operator` functions. -/
inductive CalcError where
  /-- Message: `Expression cannot be empty` (`ValueError`). -/
  | emptyExpression
  /-- Message: `Mismatched parentheses` (`ValueError`). -/
  | mismatchedParentheses
  /-- Message: `Insufficient operands for unary operator` (`ValueError`). -/
  | insufficientOperandsUnary
  /-- Message: `Insufficient operands for binary operator` (`ValueError`). -/
  | insufficientOperandsBinary
  /-- Message: `Invalid expression` (`ValueError`). -/
  | invalidExpression
  /-- Message: `Division by zero` — the explicit guard in `evaluate_rpn`
  (`ZeroDivisionError`), raised before `operator.truediv` is invoked. -/
  | divisionByZero
  /-- The runtime error of `operator.mod` on a zero divisor
  (`ZeroDivisionError: float modulo`), distinct from the guard above. -/
  | floatModulo
  /-- The runtime error of `operator.truediv` on a zero divisor
  (`ZeroDivisionError: float division by zero`); unreachable through
  `evaluate_rpn` because the guard fires first. -/
  | floatDivisionByZero
  /-- The runtime error of `operator.pow` on `0.0 ** negative`. -/
  | zeroToNegativePower
  /-- Model artefact: `operator.pow` with a non-integer exponent produces a
  float or complex value that the rational model cannot represent. -/
  | nonIntegerPower
  deriving DecidableEq, Repr

/-- Numeric value of one ASCII digit character (helper for `parseFloat`;
only ever applied to characters satisfying `Char.isDigit`). -/
def digitVal (c : Char) : ℕ :=
  if c = '0' then 0 else if c = '1' then 1 else if c = '2' then 2
  else if c = '3' then 3 else if c = '4' then 4 else if c = '5' then 5
  else if c = '6' then 6 else if c = '7' then 7 else if c = '8' then 8
  else 9

/-- Numeric value of a list of ASCII digit characters, most significant
first (helper for `parseFloat`). -/
def natOfDigits (cs : List Char) : ℕ :=
  cs.foldl (fun a c => 10 * a + digitVal c) 0

/-- Model of Python `float(token)` restricted to the token shapes this
pipeline produces (runs of digits and dots, and single-character symbol
tokens): the parse succeeds iff the token is nonempty, consists of digits
and dots only, has at most one dot and at least one digit.  This matches
CPython on every such string (`float(".")`, `float("1..2")` fail;
`float(".5")`, `float("5.")`, `float("3.5")` succeed). -/
def parseFloat (t : String) : Option ℚ :=
  let cs := t.data
  if cs ≠ [] ∧ (∀ c ∈ cs, c.isDigit = true ∨ c = '.') ∧ cs.count '.' ≤ 1 ∧
      (∃ c ∈ cs, c.isDigit = true) then
    let ip := cs.takeWhile (fun c => c ≠ '.')
    let fp := (cs.dropWhile (fun c => c ≠ '.')).drop 1
    some ((natOfDigits ip : ℚ) + (natOfDigits fp : ℚ) / (10 : ℚ) ^ fp.length)
  else none

/-- Source `_is_number`: `float(token)` succeeds. -/
def is_number (t : String) : Bool :=
  (parseFloat t).isSome

/-- Source `self.precedence` dictionary. -/
def precedence (t : String) : Option ℕ :=
  if t = "+" then some 1
  else if t = "-" then some 1
  else if t = "*" then some 2
  else if t = "/" then some 2
  else if t = "%" then some 2
  else if t = "^" then some 3
  else if t = "u" then some 4
  else none

/-- Source `_is_operator`: membership in the precedence dictionary or in the
literal list `['-', '+', '*', '/', '%', '^']` (the second disjunct adds
nothing, as in the source). -/
def is_operator (t : String) : Bool :=
  (precedence t).isSome || decide (t ∈ (["-", "+", "*", "/", "%", "^"] : List String))

/-- Source `_get_precedence`: dictionary lookup with default `0`. -/
def get_precedence (t : String) : ℕ :=
  (precedence t).getD 0

/-- Model of Python `operator.truediv` on floats: raises on a zero divisor,
exact quotient otherwise. -/
def pytruediv (l r : ℚ) : Except CalcError ℚ :=
  if r = 0 then .error CalcError.floatDivisionByZero
  else .ok (l / r)

/-- Model of Python `operator.mod` on floats: raises `float modulo` on a
zero divisor, otherwise `l - r * floor (l / r)` (the result takes the sign
of the divisor, as in Python). -/
def pymod (l r : ℚ) : Except CalcError ℚ :=
  if r = 0 then .error CalcError.floatModulo
  else .ok (l - r * ((l / r).floor : ℚ))

/-- Model of Python `operator.pow` on floats, for integer exponents (the
only exponents the verified properties exercise): `0.0` to a negative power
raises, otherwise the exact power.  A non-integer exponent is mapped to the
model artefact error `nonIntegerPower`. -/
def pypow (l r : ℚ) : Except CalcError ℚ :=
  if r.den = 1 then
    if 0 ≤ r.num then .ok (l ^ r.num.toNat)
    else if l = 0 then .error CalcError.zeroToNegativePower
    else .ok ((l ^ (-r.num).toNat)⁻¹)
  else .error CalcError.nonIntegerPower

/-- Source `self.operators` dictionary restricted to the binary symbols
(`'u'` is handled separately in `evaluate_rpn`, as in the source).  The
final branch is unreachable through the pipeline: `evaluate_rpn` only calls
this with `is_operator token = true` and `token ≠ "u"`. -/
def applyBinary (token : String) (left right : ℚ) : Except CalcError ℚ :=
  if token = "+" then .ok (left + right)
  else if token = "-" then .ok (left - right)
  else if token = "*" then .ok (left * right)
  else if token = "/" then pytruediv left right
  else if token = "%" then pymod left right
  else if token = "^" then pypow left right
  else .error CalcError.invalidExpression

/-- Core loop of source `_tokenize`, over the character list with spaces
already removed, carrying the pending digit/dot run `current`.  A digit or
dot extends `current`; any other character first flushes `current` (if
nonempty) and is then emitted as its own single-character token.  The
source's special case for `-` (lines 178–185) appends the token `'-'` in
both branches of its `if`, so it is folded here. -/
def tokenizeAux : List Char → List Char → List String
  | [], current => if current = [] then [] else [String.mk current]
  | c :: rest, current =>
    if c.isDigit || c == '.' then
      tokenizeAux rest (current ++ [c])
    else
      (if current = [] then [] else [String.mk current]) ++
        (String.mk [c] :: tokenizeAux rest [])

/-- Source `_tokenize`: remove the spaces (Python
`expression.replace(' ', '')` removes only `' '`), then scan. -/
def tokenize (expression : String) : List String :=
  tokenizeAux (expression.data.filter (fun c => c ≠ ' ')) []

/-- While-loop of the operator case in `to_reverse_polish_notation` (lines
92–94): pop stack tops that are operators of precedence `≥` the incoming
token's (non-strict comparison), returning the popped tokens in pop order
together with the remaining stack.  The stack's head is its top. -/
def popGE (tok : String) : List String → List String × List String
  | [] => ([], [])
  | top :: rest =>
    if is_operator top = true ∧ get_precedence tok ≤ get_precedence top then
      let pr := popGE tok rest
      (top :: pr.1, pr.2)
    else ([], top :: rest)

/-- While-loop of the `')'` case (lines 103–109): pop tokens into the output
until a `"("` is found; the `"("` itself is popped and discarded.  `none`
means the stack was exhausted without finding `"("` (mismatched
parentheses). -/
def popUntilParen : List String → Option (List String × List String)
  | [] => none
  | top :: rest =>
    if top = "(" then some ([], rest)
    else
      match popUntilParen rest with
      | none => none
      | some pr => some (top :: pr.1, pr.2)

/-- Final while-loop of `to_reverse_polish_notation` (lines 113–116): drain
the stack into the output, failing if a `"("` remains. -/
def finalPop : List String → List String → Except CalcError (List String)
  | output, [] => .ok output
  | output, top :: rest =>
    if top = "(" then .error CalcError.mismatchedParentheses
    else finalPop (output ++ [top]) rest

/-- Main scan of source `to_reverse_polish_notation` (lines 82–110), carrying
the output list, the operator stack (head = top) and the `may_be_unary`
flag.  A token that is neither a number, an operator, `"("` nor `")"` falls
through the `if`/`elif` chain and is skipped, as in the source. -/
def rpnAux : List String → List String → List String → Bool → Except CalcError (List String)
  | [], output, stack, _ => finalPop output stack
  | token :: rest, output, stack, mayUnary =>
    if is_number token then
      rpnAux rest (output ++ [token]) stack false
    else if is_operator token then
      let tok := if mayUnary = true ∧ token = "-" then "u" else token
      let pr := popGE tok stack
      rpnAux rest (output ++ pr.1) (tok :: pr.2) true
    else if token = "(" then
      rpnAux rest output (token :: stack) true
    else if token = ")" then
      match popUntilParen stack with
      | none => .error CalcError.mismatchedParentheses
      | some pr => rpnAux rest (output ++ pr.1) pr.2 false
    else
      rpnAux rest output stack mayUnary

/-- Source `to_reverse_polish_notation`: tokenize, then scan with empty
output and stack and `may_be_unary = True`. -/
def to_reverse_polish_notation (expression : String) : Except CalcError (List String) :=
  rpnAux (tokenize expression) [] [] true

/-- Main loop of source `evaluate_rpn` (lines 130–159) with the value stack
explicit (head = top).  Matching on `parseFloat token` first is the
source's `if self._is_number(token)` (the parse cannot fail when
`_is_number` succeeded); the explicit division guard (line 150) fires
before `operator.truediv` would.  A token that is neither number nor
operator is skipped, as in the source. -/
def evalRpnAux : List String → List ℚ → Except CalcError ℚ
  | [], stack =>
    match stack with
    | [v] => .ok v
    | _ => .error CalcError.invalidExpression
  | token :: rest, stack =>
    match parseFloat token with
    | some v => evalRpnAux rest (v :: stack)
    | none =>
      if is_operator token then
        if token = "u" then
          match stack with
          | [] => .error CalcError.insufficientOperandsUnary
          | operand :: stack2 => evalRpnAux rest ((-operand) :: stack2)
        else
          match stack with
          | right :: left :: stack2 =>
            if token = "/" ∧ right = 0 then .error CalcError.divisionByZero
            else
              match applyBinary token left right with
              | .ok result => evalRpnAux rest (result :: stack2)
              | .error e => .error e
          | _ => .error CalcError.insufficientOperandsBinary
      else
        evalRpnAux rest stack

/-- Source `evaluate_rpn`: run the stack machine from an empty stack. -/
def evaluate_rpn (rpn : List String) : Except CalcError ℚ :=
  evalRpnAux rpn []

/-- Net effect of one RPN token on the operand-stack size, as defined by the
spec's RPN-sequence invariant: a number pushes one operand (+1), the unary
operator `"u"` consumes one and produces one (0), a binary operator consumes
two and produces one (−1). -/
def rpnWeight (t : String) : Int :=
  if is_number t then 1 else if t = "u" then 0 else -1

/-- Running-balance check of the spec's RPN-sequence invariant, starting
from balance `acc`: the balance never goes negative after any token and
ends at exactly `1`. -/
def balanceOk : List String → Int → Bool
  | [], acc => acc == 1
  | t :: rest, acc =>
    decide (0 ≤ acc + rpnWeight t) && balanceOk rest (acc + rpnWeight t)

/-- Spec's RPN-sequence balance invariant for a whole token sequence. -/
def rpnBalanced (ts : List String) : Bool :=
  balanceOk ts 0

/-- Python `str.strip()` whitespace set (ASCII part). -/
def isPySpace (c : Char) : Bool :=
  c == ' ' || c == '\t' || c == '\n' || c == '\r' || c == '\x0b' || c == '\x0c'

/-- Model of Python `expression.strip()`: remove leading and trailing
whitespace. -/
def pyStrip (s : String) : String :=
  String.mk (((s.data.dropWhile isPySpace).reverse.dropWhile isPySpace).reverse)

/-- Source `calculate` (lines 35–65): reject empty or whitespace-only input
before tokenizing, otherwise convert to RPN and evaluate.  The `print`
calls are presentation only and are not modelled. -/
def calculate (expression : String) : Except CalcError ℚ :=
  if expression = "" ∨ pyStrip expression = "" then .error CalcError.emptyExpression
  else
    match to_reverse_polish_notation expression with
    | .error e => .error e
    | .ok rpn => evaluate_rpn rpn

/-! ### Helper lemmas -/

theorem parseFloat_u : parseFloat "u" = none := by decide

theorem parseFloat_div : parseFloat "/" = none := by decide

theorem parseFloat_mod : parseFloat "%" = none := by decide

theorem is_operator_u : is_operator "u" = true := by decide

theorem is_operator_div : is_operator "/" = true := by decide

theorem is_operator_mod : is_operator "%" = true := by decide

/-- When the input is not rejected as empty and its conversion is known,
`calculate` is the evaluation of the converted RPN sequence. -/
theorem calc_eq_rpn (s : String) (rpn : List String)
    (hne : ¬ (s = "" ∨ pyStrip s = "")) (h : to_reverse_polish_notation s = Except.ok rpn) :
    calculate s = evaluate_rpn rpn := by
  unfold calculate
  rw [if_neg hne, h]

/-- Every token popped by the precedence loop is an operator (the loop only
pops stack tops satisfying `is_operator`). -/
theorem popGE_fst_operator (tok : String) :
    ∀ (stack : List String) (t : String), t ∈ (popGE tok stack).1 → is_operator t = true := by
  intro stack
  induction stack with
  | nil =>
    intro t ht
    simp [popGE] at ht
  | cons top rest ih =>
    intro t ht
    simp only [popGE] at ht
    split at ht
    · next hc =>
      simp only [List.mem_cons] at ht
      rcases ht with h | h
      · exact h ▸ hc.1
      · exact ih t h
    · simp at ht

/-- The stack left by the precedence loop is made of elements of the
original stack. -/
theorem popGE_snd_mem (tok : String) :
    ∀ (stack : List String) (t : String), t ∈ (popGE tok stack).2 → t ∈ stack := by
  intro stack
  induction stack with
  | nil =>
    intro t ht
    simp [popGE] at ht
  | cons top rest ih =>
    intro t ht
    simp only [popGE] at ht
    split at ht
    · exact List.mem_cons_of_mem top (ih t ht)
    · exact ht

/-- When the `')'` loop succeeds, the popped tokens are stack elements other
than `"("` and the remaining stack is made of stack elements. -/
theorem popUntilParen_mem :
    ∀ (stack pr1 pr2 : List String), popUntilParen stack = some (pr1, pr2) →
      (∀ t ∈ pr1, t ∈ stack ∧ t ≠ "(") ∧ (∀ t ∈ pr2, t ∈ stack) := by
  intro stack
  induction stack with
  | nil =>
    intro pr1 pr2 h
    simp [popUntilParen] at h
  | cons top rest ih =>
    intro pr1 pr2 h
    simp only [popUntilParen] at h
    split at h
    · next hpar =>
      simp only [Option.some.injEq, Prod.mk.injEq] at h
      obtain ⟨h1, h2⟩ := h
      subst h1
      subst h2
      refine ⟨by simp, ?_⟩
      intro t ht
      exact List.mem_cons_of_mem top ht
    · next hpar =>
      split at h
      · exact absurd h (by simp)
      · next pr heq =>
        simp only [Option.some.injEq, Prod.mk.injEq] at h
        obtain ⟨h1, h2⟩ := h
        subst h1
        subst h2
        obtain ⟨ihp, ihr⟩ := ih pr.1 pr.2 heq
        constructor
        · intro t ht
          simp only [List.mem_cons] at ht
          rcases ht with h | h
          · subst h
            exact ⟨List.mem_cons_self t rest, hpar⟩
          · exact ⟨List.mem_cons_of_mem top (ihp t h).1, (ihp t h).2⟩
        · intro t ht
          exact List.mem_cons_of_mem top (ihr t ht)

/-- When the final drain succeeds, the converter output extends the running
output only with stack elements. -/
theorem finalPop_ok_mem :
    ∀ (stack output out : List String), finalPop output stack = Except.ok out →
      ∀ t ∈ out, t ∈ output ∨ t ∈ stack := by
  intro stack
  induction stack with
  | nil =>
    intro output out h t ht
    simp only [finalPop, Except.ok.injEq] at h
    subst h
    exact Or.inl ht
  | cons top rest ih =>
    intro output out h t ht
    simp only [finalPop] at h
    split at h
    · exact absurd h (by simp)
    · rcases ih (output ++ [top]) out h t ht with h1 | h1
      · rcases List.mem_append.mp h1 with h2 | h2
        · exact Or.inl h2
        · simp only [List.mem_singleton] at h2
          subst h2
          exact Or.inr (List.mem_cons_self t rest)
      · exact Or.inr (List.mem_cons_of_mem top h1)

/-- When the final drain succeeds, no `"("` was on the stack. -/
theorem finalPop_ok_no_paren :
    ∀ (stack output out : List String), finalPop output stack = Except.ok out →
      "(" ∉ stack := by
  intro stack
  induction stack with
  | nil =>
    intro output out _ h
    simp at h
  | cons top rest ih =>
    intro output out h hmem
    simp only [finalPop] at h
    split at h
    · exact absurd h (by simp)
    · next hc =>
      rcases List.mem_cons.mp hmem with h1 | h1
      · exact hc h1.symm
      · exact ih (output ++ [top]) out h h1

/-- A stack without `"("` drains without error. -/
theorem finalPop_no_paren_ok :
    ∀ (stack : List String), "(" ∉ stack →
      ∀ output, ∃ out, finalPop output stack = Except.ok out := by
  intro stack
  induction stack with
  | nil =>
    intro _ output
    exact ⟨output, rfl⟩
  | cons top rest ih =>
    intro h output
    have htop : ¬ top = "(" := fun he => h (he ▸ List.mem_cons_self top rest)
    have hrest : "(" ∉ rest := fun hm => h (List.mem_cons_of_mem top hm)
    obtain ⟨out, hout⟩ := ih hrest (output ++ [top])
    refine ⟨out, ?_⟩
    simp only [finalPop]
    rw [if_neg htop]
    exact hout

/-- Main invariant of the converter scan: if every running-output token is a
number or an operator and every stacked token is an operator or `"("`, then
every token of a successful result is a number or an operator (unrecognized
tokens are dropped, parentheses are consumed). -/
theorem rpnAux_ok_mem :
    ∀ (tokens output stack : List String) (flag : Bool) (out : List String),
      (∀ t ∈ output, is_number t = true ∨ is_operator t = true) →
      (∀ t ∈ stack, is_operator t = true ∨ t = "(") →
      rpnAux tokens output stack flag = Except.ok out →
      ∀ t ∈ out, is_number t = true ∨ is_operator t = true := by
  intro tokens
  induction tokens with
  | nil =>
    intro output stack flag out hout hstack h t ht
    simp only [rpnAux] at h
    rcases finalPop_ok_mem stack output out h t ht with h1 | h1
    · exact hout t h1
    · rcases hstack t h1 with h2 | h2
      · exact Or.inr h2
      · exact absurd (h2 ▸ h1) (finalPop_ok_no_paren stack output out h)
  | cons token rest ih =>
    intro output stack flag out hout hstack h t ht
    by_cases hnum : is_number token = true
    · simp only [rpnAux, hnum, if_true] at h
      refine ih _ _ _ out ?_ hstack h t ht
      intro u hu
      rcases List.mem_append.mp hu with h1 | h1
      · exact hout u h1
      · simp only [List.mem_singleton] at h1
        exact Or.inl (h1 ▸ hnum)
    · by_cases hop : is_operator token = true
      · simp only [rpnAux, hnum, hop, Bool.false_eq_true, if_false, if_true] at h
        refine ih _ _ _ out ?_ ?_ h t ht
        · intro u hu
          rcases List.mem_append.mp hu with h1 | h1
          · exact hout u h1
          · exact Or.inr (popGE_fst_operator _ stack u h1)
        · intro u hu
          rcases List.mem_cons.mp hu with h1 | h1
          · subst h1
            split
            · exact Or.inl (by decide)
            · exact Or.inl hop
          · rcases hstack u (popGE_snd_mem _ stack u h1) with h2 | h2
            · exact Or.inl h2
            · exact Or.inr h2
      · by_cases hpar : token = "("
        · subst hpar
          simp only [rpnAux, hnum, hop, eq_self_iff_true, Bool.false_eq_true, if_false,
            if_true] at h
          refine ih _ _ _ out hout ?_ h t ht
          intro u hu
          rcases List.mem_cons.mp hu with h1 | h1
          · exact Or.inr h1
          · exact hstack u h1
        · by_cases hrpar : token = ")"
          · subst hrpar
            simp only [rpnAux, hnum, hop, hpar, eq_self_iff_true, Bool.false_eq_true,
              if_false, if_true] at h
            rcases heq : popUntilParen stack with _ | pr
            · rw [heq] at h
              exact absurd h (by simp)
            · rw [heq] at h
              obtain ⟨hp1, hp2⟩ := popUntilParen_mem stack pr.1 pr.2 heq
              refine ih _ _ _ out ?_ ?_ h t ht
              · intro u hu
                rcases List.mem_append.mp hu with h1 | h1
                · exact hout u h1
                · obtain ⟨hmem, hne⟩ := hp1 u h1
                  rcases hstack u hmem with h2 | h2
                  · exact Or.inr h2
                  · exact absurd h2 hne
              · intro u hu
                exact hstack u (hp2 u hu)
          · simp only [rpnAux, hnum, hop, hpar, hrpar, Bool.false_eq_true, if_false] at h
            exact ih _ _ _ out hout hstack h t ht

/-- On a token list containing neither `"("` nor `")"`, the scan cannot
fail, provided the stack holds no `"("`. -/
theorem rpnAux_no_paren_ok :
    ∀ (tokens : List String), (∀ t ∈ tokens, t ≠ "(" ∧ t ≠ ")") →
      ∀ output stack flag, "(" ∉ stack →
        ∃ out, rpnAux tokens output stack flag = Except.ok out := by
  intro tokens
  induction tokens with
  | nil =>
    intro _ output stack flag hstack
    exact finalPop_no_paren_ok stack hstack output
  | cons token rest ih =>
    intro htok output stack flag hstack
    obtain ⟨hlp, hrp⟩ := htok token (List.mem_cons_self token rest)
    have hrest : ∀ t ∈ rest, t ≠ "(" ∧ t ≠ ")" :=
      fun t ht => htok t (List.mem_cons_of_mem token ht)
    by_cases hnum : is_number token = true
    · obtain ⟨out, hout⟩ := ih hrest (output ++ [token]) stack false hstack
      exact ⟨out, by simp only [rpnAux, hnum, if_true]; exact hout⟩
    · by_cases hop : is_operator token = true
      · have hnewstack :
            "(" ∉ (if flag = true ∧ token = "-" then "u" else token) ::
              (popGE (if flag = true ∧ token = "-" then "u" else token) stack).2 := by
          intro hmem
          rcases List.mem_cons.mp hmem with h1 | h1
          · split at h1
            · exact absurd h1.symm (by decide)
            · exact hlp h1.symm
          · exact hstack (popGE_snd_mem _ stack "(" h1)
        obtain ⟨out, hout⟩ := ih hrest _ _ true hnewstack
        refine ⟨out, ?_⟩
        simp only [rpnAux, hnum, hop, Bool.false_eq_true, if_false, if_true]
        exact hout
      · have hite : ¬ token = "(" := hlp
        have hite2 : ¬ token = ")" := hrp
        obtain ⟨out, hout⟩ := ih hrest output stack flag hstack
        refine ⟨out, ?_⟩
        simp only [rpnAux, hnum, hop, hite, hite2, Bool.false_eq_true, if_false]
        exact hout

/-- Every character of every token produced by the tokenizer scan comes from
the scanned character list or from the pending run. -/
theorem tokenizeAux_chars :
    ∀ (cs current : List Char) (t : String), t ∈ tokenizeAux cs current →
      ∀ c ∈ t.data, c ∈ cs ∨ c ∈ current := by
  intro cs
  induction cs with
  | nil =>
    intro current t ht c hc
    simp only [tokenizeAux] at ht
    split at ht
    · simp at ht
    · simp only [List.mem_singleton] at ht
      subst ht
      exact Or.inr hc
  | cons ch rest ih =>
    intro current t ht c hc
    simp only [tokenizeAux] at ht
    split at ht
    · rcases ih (current ++ [ch]) t ht c hc with h | h
      · exact Or.inl (List.mem_cons_of_mem ch h)
      · rcases List.mem_append.mp h with h1 | h1
        · exact Or.inr h1
        · simp only [List.mem_singleton] at h1
          exact Or.inl (h1 ▸ List.mem_cons_self ch rest)
    · rcases List.mem_append.mp ht with h1 | h1
      · split at h1
        · simp at h1
        · simp only [List.mem_singleton] at h1
          subst h1
          exact Or.inr hc
      · rcases List.mem_cons.mp h1 with h2 | h2
        · subst h2
          simp only [List.mem_singleton] at hc
          exact Or.inl (hc ▸ List.mem_cons_self ch rest)
        · rcases ih [] t h2 c hc with h | h
          · exact Or.inl (List.mem_cons_of_mem ch h)
          · simp at h

/-- Every character of every token of `tokenize s` is a character of `s`. -/
theorem tokenize_chars (s t : String) (ht : t ∈ tokenize s) :
    ∀ c ∈ t.data, c ∈ s.data := by
  intro c hc
  rcases tokenizeAux_chars _ [] t ht c hc with h | h
  · exact (List.mem_filter.mp h).1
  · simp at h

/-! ### Claim theorems -/

/-- C1 (behavior at the failing input): the converter's non-strict `<=`
comparison pops an equal-precedence `^` from the stack, so `"2^3^2"`
converts to `2 3 ^ 2 ^` and evaluates left-associatively: both `"2^3^2"`
and `"(2^3)^2"` evaluate to `64`.  The claim (and the repository's own test
`test_exponentiation`) states `"2^3^2"` evaluates right-associatively to
`512`; the code does not. -/
theorem C1_pow_left_assoc_behavior :
    to_reverse_polish_notation "2^3^2" = Except.ok ["2", "3", "^", "2", "^"] ∧
    calculate "2^3^2" = Except.ok 64 ∧ calculate "(2^3)^2" = Except.ok 64 := by
  refine ⟨by decide, ?_, ?_⟩
  · rw [calc_eq_rpn "2^3^2" ["2", "3", "^", "2", "^"] (by decide) (by decide)]
    norm_num +decide [evaluate_rpn, evalRpnAux, parseFloat, natOfDigits, digitVal,
      is_operator, precedence, applyBinary, pypow, pytruediv, pymod]
  · rw [calc_eq_rpn "(2^3)^2" ["2", "3", "^", "2", "^"] (by decide) (by decide)]
    norm_num +decide [evaluate_rpn, evalRpnAux, parseFloat, natOfDigits, digitVal,
      is_operator, precedence, applyBinary, pypow, pytruediv, pymod]

/-- C2 (counterexample): `"2a"` contains the character `'a'`, which is not a
digit, dot, whitespace, or one of `+ - * / % ^ ( )`, yet `calculate "2a"`
returns the numeric result `2` — the unrecognized token is silently dropped,
not surfaced as an error. -/
theorem C2_unrecognized_counterexample :
    (∃ c ∈ "2a".data, ¬ (c.isDigit = true ∨ isPySpace c = true ∨
      c ∈ (['.', '+', '-', '*', '/', '%', '^', '(', ')'] : List Char))) ∧
    calculate "2a" = Except.ok 2 := by
  refine ⟨by decide, ?_⟩
  rw [calc_eq_rpn "2a" ["2"] (by decide) (by decide)]
  norm_num +decide [evaluate_rpn, evalRpnAux, parseFloat, natOfDigits, digitVal,
    is_operator, precedence, applyBinary, pypow, pytruediv, pymod]

/-- C3 (counterexample): `to_reverse_polish_notation "+"` returns without
error the sequence `["+"]`, whose running operand balance goes to `−1` on
the binary operator and does not end at `1`, violating the claimed RPN
balance invariant. -/
theorem C3_balance_counterexample :
    to_reverse_polish_notation "+" = Except.ok ["+"] ∧ rpnBalanced ["+"] = false := by
  exact ⟨by decide, by decide⟩

/-- C4: unary minus is disambiguated by the converter's expect-operand flag
and applied by the evaluator as negation of one popped operand:
`calculate "-5" = -5`, `calculate "2 + -4" = -2`, `calculate "-2^3" = -8`,
and one `"u"` step of the evaluator replaces the top of the stack by its
negation. -/
theorem C4_unary_minus :
    calculate "-5" = Except.ok (-5) ∧ calculate "2 + -4" = Except.ok (-2) ∧
    calculate "-2^3" = Except.ok (-8) ∧
    ∀ (rest : List String) (v : ℚ) (stack : List ℚ),
      evalRpnAux ("u" :: rest) (v :: stack) = evalRpnAux rest ((-v) :: stack) := by
  refine ⟨?_, ?_, ?_, ?_⟩
  · rw [calc_eq_rpn "-5" ["5", "u"] (by decide) (by decide)]
    norm_num +decide [evaluate_rpn, evalRpnAux, parseFloat, natOfDigits, digitVal,
      is_operator, precedence, applyBinary, pypow, pytruediv, pymod]
  · rw [calc_eq_rpn "2 + -4" ["2", "4", "u", "+"] (by decide) (by decide)]
    norm_num +decide [evaluate_rpn, evalRpnAux, parseFloat, natOfDigits, digitVal,
      is_operator, precedence, applyBinary, pypow, pytruediv, pymod]
  · rw [calc_eq_rpn "-2^3" ["2", "u", "3", "^"] (by decide) (by decide)]
    norm_num +decide [evaluate_rpn, evalRpnAux, parseFloat, natOfDigits, digitVal,
      is_operator, precedence, applyBinary, pypow, pytruediv, pymod]
  · intro rest v stack
    simp [evalRpnAux, parseFloat_u, is_operator_u]

/-- C4 (witness): one `"u"` step on the concrete stack `[5]` negates the
top. -/
theorem C4_unary_minus_witness :
    evalRpnAux ["u"] ([5] : List ℚ) = evalRpnAux [] ([-5] : List ℚ) :=
  C4_unary_minus.2.2.2 [] 5 []

/-- C5: the binary `/` with zero right operand fails with the guard's
DivisionByZero error for every stack and continuation (the guard fires
before the division function is invoked); `calculate "5/0"` fails with
DivisionByZero and `calculate "6/3" = 2`. -/
theorem C5_division_by_zero_guard :
    (∀ (rest : List String) (left : ℚ) (stack : List ℚ) (right : ℚ), right = 0 →
      evalRpnAux ("/" :: rest) (right :: left :: stack) = Except.error CalcError.divisionByZero) ∧
    calculate "5/0" = Except.error CalcError.divisionByZero ∧
    calculate "6/3" = Except.ok 2 := by
  refine ⟨?_, ?_, ?_⟩
  · intro rest left stack right hr
    subst hr
    simp [evalRpnAux, parseFloat_div, is_operator_div]
  · rw [calc_eq_rpn "5/0" ["5", "0", "/"] (by decide) (by decide)]
    norm_num +decide [evaluate_rpn, evalRpnAux, parseFloat, natOfDigits, digitVal,
      is_operator, precedence, applyBinary, pypow, pytruediv, pymod]
  · rw [calc_eq_rpn "6/3" ["6", "3", "/"] (by decide) (by decide)]
    norm_num +decide [evaluate_rpn, evalRpnAux, parseFloat, natOfDigits, digitVal,
      is_operator, precedence, applyBinary, pypow, pytruediv, pymod]

/-- C5 (witness): the guard fires on the concrete RPN step `/` with stack
`[0, 1]` (right operand `0` on top). -/
theorem C5_division_by_zero_guard_witness :
    evalRpnAux ["/"] ([0, 1] : List ℚ) = Except.error CalcError.divisionByZero :=
  C5_division_by_zero_guard.1 [] 1 [] 0 rfl

/-- C6: the evaluator's `%` case is the unguarded platform float modulo:
`applyBinary "%"` is exactly `pymod`; a zero right operand produces the
platform's float-modulo error, a distinct error from the guarded
DivisionByZero (which applies only to `/`); concretely
`calculate "5%0"` fails with the float-modulo error. -/
theorem C6_modulo_unguarded :
    (∀ left right : ℚ, applyBinary "%" left right = pymod left right) ∧
    (∀ left : ℚ, pymod left 0 = Except.error CalcError.floatModulo) ∧
    (∀ (rest : List String) (left : ℚ) (stack : List ℚ),
      evalRpnAux ("%" :: rest) (0 :: left :: stack) = Except.error CalcError.floatModulo) ∧
    CalcError.floatModulo ≠ CalcError.divisionByZero ∧
    calculate "5%0" = Except.error CalcError.floatModulo := by
  refine ⟨?_, ?_, ?_, by decide, ?_⟩
  · intro left right
    simp [applyBinary]
  · intro left
    simp [pymod]
  · intro rest left stack
    simp [evalRpnAux, parseFloat_mod, is_operator_mod, applyBinary, pymod]
  · rw [calc_eq_rpn "5%0" ["5", "0", "%"] (by decide) (by decide)]
    norm_num +decide [evaluate_rpn, evalRpnAux, parseFloat, natOfDigits, digitVal,
      is_operator, precedence, applyBinary, pypow, pytruediv, pymod]

/-- C6 (witness): the `%` step on the concrete stack `[0, 5]` yields the
platform float-modulo error. -/
theorem C6_modulo_unguarded_witness :
    evalRpnAux ["%"] ([0, 5] : List ℚ) = Except.error CalcError.floatModulo :=
  C6_modulo_unguarded.2.2.1 [] 5 []

/-- C8: unbalanced parentheses in either direction fail with
MismatchedParentheses, and with balanced parentheses
`to_reverse_polish_notation "(3+4)*2"` is `[3, 4, +, 2, *]`. -/
theorem C8_mismatched_parentheses :
    calculate "(2+3" = Except.error CalcError.mismatchedParentheses ∧
    calculate "2+3)" = Except.error CalcError.mismatchedParentheses ∧
    to_reverse_polish_notation "(3+4)*2" = Except.ok ["3", "4", "+", "2", "*"] := by
  exact ⟨by decide, by decide, by decide⟩

/-- C9: the RPN evaluator fails with InsufficientOperands when a binary
operator is reached with fewer than two stacked values or the unary
operator with an empty stack; after the full sequence it fails with
InvalidExpression unless exactly one value remains, which is returned;
`calculate "2 + + 3"` fails with the binary InsufficientOperands error. -/
theorem C9_evaluator_arity_errors :
    (∀ (token : String) (rest : List String) (stack : List ℚ),
      parseFloat token = none → is_operator token = true → token ≠ "u" →
      stack.length < 2 →
      evalRpnAux (token :: rest) stack = Except.error CalcError.insufficientOperandsBinary) ∧
    (∀ rest : List String,
      evalRpnAux ("u" :: rest) ([] : List ℚ) = Except.error CalcError.insufficientOperandsUnary) ∧
    (∀ stack : List ℚ, stack.length ≠ 1 →
      evalRpnAux ([] : List String) stack = Except.error CalcError.invalidExpression) ∧
    (∀ v : ℚ, evalRpnAux ([] : List String) [v] = Except.ok v) ∧
    calculate "2 + + 3" = Except.error CalcError.insufficientOperandsBinary := by
  refine ⟨?_, ?_, ?_, ?_, by decide⟩
  · intro token rest stack hpf hop hu hlen
    match stack with
    | [] => simp [evalRpnAux, hpf, hop, hu]
    | [x] => simp [evalRpnAux, hpf, hop, hu]
    | x :: y :: t =>
      simp only [List.length_cons] at hlen
      omega
  · intro rest
    simp [evalRpnAux, parseFloat_u, is_operator_u]
  · intro stack hlen
    match stack with
    | [] => rfl
    | [v] => simp at hlen
    | x :: y :: t => rfl
  · intro v
    rfl

/-- C9 (witness): the binary `+` on the concrete empty stack yields the
binary InsufficientOperands error. -/
theorem C9_evaluator_arity_errors_witness :
    evalRpnAux ["+"] ([] : List ℚ) = Except.error CalcError.insufficientOperandsBinary :=
  C9_evaluator_arity_errors.1 "+" [] [] (by decide) (by decide) (by decide) (by decide)

/-- C2 (amended): every token of a successful conversion is either a number
or an operator — a token produced from an unrecognized character is neither
and is silently dropped by the converter rather than surfaced as an error,
so evaluation can still return a numeric result, e.g.
`calculate "2a" = 2`. -/
theorem C2_unrecognized_dropped :
    (∀ (s : String) (out : List String) (t : String),
      to_reverse_polish_notation s = Except.ok out → t ∈ out →
      is_number t = true ∨ is_operator t = true) ∧
    calculate "2a" = Except.ok 2 := by
  constructor
  · intro s out t h ht
    unfold to_reverse_polish_notation at h
    exact rpnAux_ok_mem (tokenize s) [] [] true out (by simp) (by simp) h t ht
  · rw [calc_eq_rpn "2a" ["2"] (by decide) (by decide)]
    norm_num +decide [evaluate_rpn, evalRpnAux, parseFloat, natOfDigits, digitVal,
      is_operator, precedence, applyBinary, pypow, pytruediv, pymod]

/-- C2 (witness): instantiating the dropped-token invariant at the concrete
conversion of `"3"`. -/
theorem C2_unrecognized_dropped_witness :
    is_number "3" = true ∨ is_operator "3" = true :=
  C2_unrecognized_dropped.1 "3" ["3"] "3" (by decide) (by decide)

/-- C3 (amended): every successful conversion result contains no
parenthesis tokens; the balance part of the claimed invariant does not hold
in general (see the counterexample), only the parenthesis-freeness does. -/
theorem C3_converter_output_no_parens :
    ∀ (s : String) (out : List String), to_reverse_polish_notation s = Except.ok out →
      "(" ∉ out ∧ ")" ∉ out := by
  intro s out h
  unfold to_reverse_polish_notation at h
  have hmem := rpnAux_ok_mem (tokenize s) [] [] true out (by simp) (by simp) h
  constructor
  · intro hin
    rcases hmem "(" hin with h1 | h1
    · exact absurd h1 (by decide)
    · exact absurd h1 (by decide)
  · intro hin
    rcases hmem ")" hin with h1 | h1
    · exact absurd h1 (by decide)
    · exact absurd h1 (by decide)

/-- C3 (witness): instantiating parenthesis-freeness at the concrete
conversion of `"3"`. -/
theorem C3_converter_output_no_parens_witness :
    "(" ∉ (["3"] : List String) ∧ ")" ∉ (["3"] : List String) :=
  C3_converter_output_no_parens "3" ["3"] (by decide)

/-- C7: every empty or whitespace-only input fails with the EmptyExpression
error — the check precedes tokenizing and conversion in `calculate`. -/
theorem C7_empty_expression :
    ∀ s : String, (∀ c ∈ s.data, isPySpace c = true) →
      calculate s = Except.error CalcError.emptyExpression := by
  intro s h
  have h1 : s.data.dropWhile isPySpace = [] := List.dropWhile_eq_nil_iff.mpr h
  have h2 : pyStrip s = "" := by
    unfold pyStrip
    rw [h1]
    rfl
  unfold calculate
  rw [if_pos (Or.inr h2)]

/-- C7 (witness): the concrete whitespace-only input `" "` fails with
EmptyExpression. -/
theorem C7_empty_expression_witness :
    calculate " " = Except.error CalcError.emptyExpression :=
  C7_empty_expression " " (by decide)

/-- C10: the conversion stage validates only parenthesis matching — on any
input containing neither `'('` nor `')'`, `to_reverse_polish_notation`
returns without error. -/
theorem C10_paren_free_conversion_total :
    ∀ s : String, '(' ∉ s.data → ')' ∉ s.data →
      ∃ out, to_reverse_polish_notation s = Except.ok out := by
  intro s h1 h2
  unfold to_reverse_polish_notation
  refine rpnAux_no_paren_ok (tokenize s) ?_ [] [] true (by simp)
  intro t ht
  constructor
  · intro he
    subst he
    exact h1 (tokenize_chars s "(" ht '(' (by decide))
  · intro he
    subst he
    exact h2 (tokenize_chars s ")" ht ')' (by decide))

/-- C10 (witness): the concrete parenthesis-free malformed input `"2++"`
converts without error. -/
theorem C10_paren_free_conversion_total_witness :
    ∃ out, to_reverse_polish_notation "2++" = Except.ok out :=
  C10_paren_free_conversion_total "2++" (by decide) (by decide)

end Calculator
